import Mathlib

/-!
Formal model of the case-management core of this repository: the case store
(`handleAddCase`, `handleUpdateCase`, `handleUpdateMultipleCases`,
`handleTramitateCase`, `handleImportCases` from `src/App.tsx`) and the three
copies of the deadline classifier `getDeadlineStatus`
(`src/unnamed/part_002` (Spreadsheet), `src/unnamed/part_001` (KpiDashboard),
`src/components/GlobalKpiDashboard.tsx`).

JavaScript string and date primitives used by that code (`trim`, `toLowerCase`,
`includes`, `split`, `parseInt`, `padStart`, `||` on strings, and the `Date`
constructor) are modelled explicitly below as executable Lean functions over
`List Char` and day numbers; each model states in its doc comment which
ECMAScript behaviour it captures and under which restriction.
-/

namespace MsApp

/-- Whitespace characters recognised by the string-trim model (space, tab,
newline, carriage return — the whitespace actually occurring in this data). -/
def charIsWs (c : Char) : Bool :=
  c == ' ' || c == '\t' || c == '\n' || c == '\r'

/-- Models JavaScript `String.prototype.trim`: drop leading and trailing
whitespace. -/
def jsTrim (s : String) : String :=
  String.mk (((s.data.dropWhile charIsWs).reverse.dropWhile charIsWs).reverse)

/-- ASCII lower-casing of one character (JavaScript `toLowerCase` restricted to
ASCII; non-ASCII characters are returned unchanged). -/
def jsToLowerChar (c : Char) : Char :=
  if 'A' ≤ c ∧ c ≤ 'Z' then Char.ofNat (c.toNat + 32) else c

/-- Models JavaScript `String.prototype.toLowerCase` (ASCII letters only). -/
def jsToLower (s : String) : String :=
  String.mk (s.data.map jsToLowerChar)

/-- Boolean list-prefix test, used by the substring model below. -/
def isPrefixB : List Char → List Char → Bool
  | [], _ => true
  | _ :: _, [] => false
  | a :: as, b :: bs => a == b && isPrefixB as bs

/-- Boolean list-infix test, used by the substring model below. -/
def isInfixB : List Char → List Char → Bool
  | pat, [] => pat.isEmpty
  | pat, c :: rest => isPrefixB pat (c :: rest) || isInfixB pat rest

/-- Models JavaScript `String.prototype.includes`: `pat` occurs contiguously in
`s`. -/
def jsIncludes (s pat : String) : Bool :=
  isInfixB pat.data s.data

/-- Splits a character list at every character satisfying `p`, keeping empty
pieces — the semantics of JavaScript `String.prototype.split` with a
single-character-class regular expression. -/
def charSplit (p : Char → Bool) : List Char → List (List Char)
  | [] => [[]]
  | c :: rest =>
    match charSplit p rest, p c with
    | r, true => [] :: r
    | [], false => [[c]]
    | h :: t, false => (c :: h) :: t

/-- Models JavaScript `String.prototype.split` on a single separator
character. -/
def jsSplit (s : String) (p : Char → Bool) : List String :=
  (charSplit p s.data).map String.mk

/-- Numeric value of a list of decimal digit characters. -/
def digitsVal (cs : List Char) : Nat :=
  cs.foldl (fun a c => a * 10 + (c.toNat - 48)) 0

/-- Models JavaScript `parseInt` in base 10: skip leading whitespace, accept an
optional sign, read the maximal run of leading decimal digits; `none` models
`NaN` (no digit found). -/
def jsParseInt (s : String) : Option Int :=
  let go : List Char → Option Nat := fun l =>
    let ds := l.takeWhile Char.isDigit
    if ds.isEmpty then none else some (digitsVal ds)
  match s.data.dropWhile charIsWs with
  | '-' :: rest => (go rest).map (fun n => -(n : Int))
  | '+' :: rest => (go rest).map (fun n => (n : Int))
  | rest => (go rest).map (fun n => (n : Int))

/-- Models the JavaScript `||` operator on strings: the empty string is the
only falsy string, so `a || b` is `b` when `a` is empty and `a` otherwise.
(`undefined || b` is modelled by applying this to `""`.) -/
def jsOrString (a b : String) : String :=
  if a = "" then b else a

/-- Models JavaScript `String.prototype.padStart`: left-pad `s` with `c` up to
length `n`. -/
def jsPadStart (s : String) (n : Nat) (c : Char) : String :=
  if n ≤ s.data.length then s
  else String.mk (List.replicate (n - s.data.length) c ++ s.data)

/-- `TramitationEntry` from `types.ts`. -/
structure TramitationEntry where
  fromUser : String
  toUser : String
  timestamp : String
  deadline : String
deriving DecidableEq

/-- `Attachment` from `types.ts`. -/
structure Attachment where
  id : String
  fileName : String
  fileType : String
  fileSize : Nat
  content : String
  uploadedBy : String
  timestamp : String
deriving DecidableEq

/-- `CaseData` from `types.ts`. The optional TypeScript fields
`coResponsibleName`, `tramitationLog` and `attachments` are modelled as always
present, with `""` respectively `[]` standing for `undefined`; every use in
`src/App.tsx` goes through `||`, for which this identification is exact.
Union-typed string fields (`prioridade`, `segredoDeJustica`) are modelled as
`String`. -/
structure CaseData where
  id : Nat
  id2 : String
  tribunal : String
  processoNumero : String
  autor : String
  reu : String
  trib : String
  varaComarca : String
  materia : String
  ownerName : String
  name : String
  email : String
  coResponsibleName : String
  tramitationLog : List TramitationEntry
  attachments : List Attachment
  dataNomeacao : String
  dataInicial : String
  prazoDeterminado : String
  dataDesignada : String
  dataFinal : String
  startHour : String
  finishHour : String
  dataFinalCorridos : String
  diasUteis : Int
  prioridade : String
  dataAtribuida : String
  fases : String
  status : String
  segredoDeJustica : String
  naturezaAcao : String
  valorDaAcao : String
deriving DecidableEq

/-- `User` from `types.ts` (optional `password` modelled as a plain string,
`permission` as a string). -/
structure User where
  id : Nat
  name : String
  email : String
  password : String
  permission : String
deriving DecidableEq

/-- The part of the `App` component state the case operations touch: the
`cases` array and the `lastCaseId` ref (`src/App.tsx` lines 48, 69, 76). -/
structure CaseStore where
  cases : List CaseData
  lastCaseId : Nat
deriving DecidableEq

/-- `MAX_FILE_SIZE_MB` from `src/App.tsx` line 40. -/
def MAX_FILE_SIZE_MB : Nat := 2

/-- `MAX_FILE_SIZE_BYTES` from `src/App.tsx` line 41. -/
def MAX_FILE_SIZE_BYTES : Nat := MAX_FILE_SIZE_MB * 1024 * 1024

/-- `handleAddCase` from `src/App.tsx` lines 115–153. `actorName` models
`currentUser!.name`, `now` the ISO timestamp of `new Date()`. The draft
(`Omit<CaseData,'id'|'id2'>`) is modelled as a full `CaseData` whose `id`/`id2`
fields are ignored, exactly as the object spread overwrites them. The `alert`
calls carry no state and are dropped. -/
def handleAddCase (actorName now : String) (store : CaseStore) (newCase : CaseData) :
    CaseStore :=
  if store.cases.any (fun c => jsTrim c.processoNumero == jsTrim newCase.processoNumero) then
    store
  else
    let newId := store.lastCaseId + 1
    let newId2 := "MST" ++ jsPadStart (toString newId) 5 '0'
    let tramitationLog : List TramitationEntry :=
      [{ fromUser := actorName
         toUser := newCase.name
         timestamp := now
         deadline := jsOrString newCase.prazoDeterminado "" }]
    let finalNewCase : CaseData :=
      { newCase with
        id := newId
        id2 := newId2
        ownerName := "Ms Tributário"
        coResponsibleName := newCase.name
        tramitationLog := tramitationLog }
    { cases := finalNewCase :: store.cases, lastCaseId := newId }

/-- The per-element body of the `prev.map` in `handleUpdateCase`
(`src/App.tsx` lines 160–180). -/
def updateCaseEntry (users : List User) (actorName now : String)
    (updatedCase c : CaseData) : CaseData :=
  if c.id != updatedCase.id then c
  else if c.name != updatedCase.name then
    let newUser := users.find? (fun u => u.name == updatedCase.name)
    let logEntry : TramitationEntry :=
      { fromUser := actorName
        toUser := updatedCase.name
        timestamp := now
        deadline := updatedCase.prazoDeterminado }
    { updatedCase with
      email := jsOrString (match newUser with | some u => u.email | none => "") ""
      tramitationLog := c.tramitationLog ++ [logEntry]
      coResponsibleName := jsOrString c.coResponsibleName updatedCase.name }
  else updatedCase

/-- `handleUpdateCase` from `src/App.tsx` lines 154–181. -/
def handleUpdateCase (users : List User) (actorName now : String)
    (cases : List CaseData) (updatedCase : CaseData) : List CaseData :=
  if cases.any (fun c =>
      c.id != updatedCase.id &&
      jsTrim c.processoNumero == jsTrim updatedCase.processoNumero) then
    cases
  else
    cases.map (updateCaseEntry users actorName now updatedCase)

/-- Lookup in the JavaScript `Map` built by `new Map(updatedCases.map(c =>
[c.id, c]))` (`src/App.tsx` line 184): for duplicate ids the later list entry
overwrites the earlier one, so lookup finds the last occurrence. -/
def jsMapGet (updatedCases : List CaseData) (i : Nat) : Option CaseData :=
  updatedCases.reverse.find? (fun c => c.id == i)

/-- `handleUpdateMultipleCases` from `src/App.tsx` lines 183–186. -/
def handleUpdateMultipleCases (updatedCases cases : List CaseData) : List CaseData :=
  cases.map (fun c => (jsMapGet updatedCases c.id).getD c)

/-- The metadata of a browser `File` object used by `handleTramitateCase`. -/
structure JsFile where
  name : String
  type : String
  size : Nat
deriving DecidableEq

/-- `processTramitation` from `src/App.tsx` lines 199–240. `attachment`
carries the pair (file, already-read data-URL content) when an attachment is
being stored, matching the `attachmentFile && attachmentContent` guard;
`nowMs` models the `Date.now()` prefix of the attachment id. -/
def processTramitation (users : List User) (actorName now nowMs : String)
    (caseId : Nat) (toUserName deadline : String)
    (attachment : Option (JsFile × String)) (cases : List CaseData) :
    List CaseData :=
  cases.map (fun c =>
    if c.id == caseId then
      match users.find? (fun u => u.name == toUserName) with
      | none => c
      | some toUser =>
        let logEntry : TramitationEntry :=
          { fromUser := actorName
            toUser := toUserName
            timestamp := now
            deadline := deadline }
        let updatedCase : CaseData :=
          { c with
            name := toUser.name
            email := toUser.email
            tramitationLog := c.tramitationLog ++ [logEntry]
            coResponsibleName := jsOrString c.coResponsibleName toUser.name }
        match attachment with
        | some (f, content) =>
          { updatedCase with
            attachments := c.attachments ++
              [{ id := nowMs ++ "-" ++ f.name
                 fileName := f.name
                 fileType := f.type
                 fileSize := f.size
                 content := content
                 uploadedBy := actorName
                 timestamp := now }] }
        | none => updatedCase
    else c)

/-- `handleTramitateCase` from `src/App.tsx` lines 193–259. The asynchronous
`FileReader` is modelled by its outcome `readResult`: `none` when `onerror`
fires, `some content` when `onload` delivers `content` (the `!content` guard
then rejects the empty string). The outcome is only consulted when an
attachment is present and passes the size check, mirroring the control
flow. -/
def handleTramitateCase (users : List User) (actorName now nowMs : String)
    (cases : List CaseData) (caseId : Nat) (toUserName deadline : String)
    (attachmentFile : Option JsFile) (readResult : Option String) :
    List CaseData :=
  match attachmentFile with
  | some f =>
    if f.size > MAX_FILE_SIZE_BYTES then cases
    else
      match readResult with
      | none => cases
      | some content =>
        if content = "" then cases
        else
          processTramitation users actorName now nowMs caseId toUserName deadline
            (some (f, content)) cases
  | none =>
    processTramitation users actorName now nowMs caseId toUserName deadline
      none cases

/-- The loop state of `handleImportCases` (`src/App.tsx` lines 302–350):
`importedProcessNumbersInFile`, `successfulImports`, `duplicatesInFile`,
`duplicatesInSystem`, and the `lastCaseId` ref advanced by `getNextCaseId`. -/
structure ImportState where
  seenInFile : List String
  successfulImports : List CaseData
  duplicatesInFile : List String
  duplicatesInSystem : List String
  lastCaseId : Nat
deriving DecidableEq

/-- One iteration of the `for` loop of `handleImportCases`
(`src/App.tsx` lines 310–350). -/
def importStep (users : List User) (now : String)
    (existingProcessNumbers : List String) (st : ImportState)
    (importedCase : CaseData) : ImportState :=
  let trimmedProcessoNumero := jsTrim importedCase.processoNumero
  if trimmedProcessoNumero = "" then st
  else if existingProcessNumbers.contains trimmedProcessoNumero then
    { st with duplicatesInSystem := st.duplicatesInSystem ++ [trimmedProcessoNumero] }
  else if st.seenInFile.contains trimmedProcessoNumero then
    { st with duplicatesInFile := st.duplicatesInFile ++ [trimmedProcessoNumero] }
  else
    let newId := st.lastCaseId + 1
    let newId2 := "MST" ++ jsPadStart (toString newId) 5 '0'
    let assigneeName := importedCase.name
    let assigneeUser := users.find? (fun u =>
      jsToLower (jsTrim u.name) == jsToLower (jsTrim assigneeName))
    let tramitationLog : List TramitationEntry :=
      [{ fromUser := "Sistema (Importação)"
         toUser := assigneeName
         timestamp := now
         deadline := jsOrString importedCase.prazoDeterminado "" }]
    let finalCase : CaseData :=
      { importedCase with
        id := newId
        id2 := newId2
        ownerName := "Ms Tributário"
        name := jsOrString (match assigneeUser with | some u => u.name | none => "") assigneeName
        email := jsOrString (match assigneeUser with | some u => u.email | none => "") ""
        coResponsibleName :=
          jsOrString (match assigneeUser with | some u => u.name | none => "") assigneeName
        tramitationLog := tramitationLog }
    { st with
      seenInFile := st.seenInFile ++ [trimmedProcessoNumero]
      successfulImports := st.successfulImports ++ [finalCase]
      lastCaseId := newId }

/-- `handleImportCases` from `src/App.tsx` lines 302–362: reconcile the batch
against the store and return the new store together with the final loop state
(whose lists are exactly the contents of the user-facing report). -/
def handleImportCases (users : List User) (now : String) (store : CaseStore)
    (newCases : List CaseData) : CaseStore × ImportState :=
  let existingProcessNumbers := store.cases.map (fun c => jsTrim c.processoNumero)
  let final := newCases.foldl (importStep users now existingProcessNumbers)
    { seenInFile := []
      successfulImports := []
      duplicatesInFile := []
      duplicatesInSystem := []
      lastCaseId := store.lastCaseId }
  ({ cases := store.cases ++ final.successfulImports, lastCaseId := final.lastCaseId },
   final)

/-- Day number (days since 1970-01-01) of a proleptic-Gregorian civil date,
by the standard days-from-civil algorithm; this is the date arithmetic
underlying the ECMAScript `Date` model below. -/
def daysFromCivil (y m d : Int) : Int :=
  let yy := if m ≤ 2 then y - 1 else y
  let era := yy.fdiv 400
  let yoe := yy - era * 400
  let doy := (153 * (if 2 < m then m - 3 else m + 9) + 2) / 5 + d - 1
  let doe := yoe * 365 + yoe / 4 - yoe / 100 + doy
  era * 146097 + doe - 719468

/-- The ECMAScript `Date(year, …)` constructor's two-digit-year rule: year
arguments 0–99 denote 1900–1999. -/
def jsFullYear (y : Int) : Int :=
  if 0 ≤ y ∧ y ≤ 99 then y + 1900 else y

/-- Models `new Date(year, monthIndex, day)` followed by
`setHours(0,0,0,0)`, as the day number of the resulting local midnight;
out-of-range month indices and days roll over exactly as in ECMAScript
`MakeDay`. -/
def jsMakeDay (y m0 d : Int) : Int :=
  let y1 := jsFullYear y
  let y2 := y1 + m0.fdiv 12
  let m2 := m0.emod 12
  daysFromCivil y2 (m2 + 1) 1 + (d - 1)

/-- The numeric value of a non-empty all-decimal-digit string, `none`
otherwise. -/
def decNat (s : String) : Option Nat :=
  if s.data.isEmpty then none
  else if s.data.all Char.isDigit then some (digitsVal s.data)
  else none

/-- Models `new Date(string)` followed by `setHours(0,0,0,0)` — the day
number of the resulting local midnight — for the two date-string shapes this
repository feeds it, in an environment whose clock offset is UTC:
`YYYY-MM-DD` (strict ISO date-only, parsed at UTC midnight, which at offset
zero is the same local day) and `M/D/YYYY` or `MM/DD/YYYY` (the ECMAScript
legacy US month/day/year order, parsed at local midnight; month 1–12, day
1–31, four-digit year). Any other string is modelled as Invalid Date
(`none`). -/
def jsDateParse (s : String) : Option Int :=
  match jsSplit s (fun c => c == '/') with
  | [p1, p2, p3] =>
    if p3.data.length == 4 then
      match decNat p1, decNat p2, decNat p3 with
      | some m, some d, some y =>
        if 1 ≤ m ∧ m ≤ 12 ∧ 1 ≤ d ∧ d ≤ 31 then
          some (jsMakeDay (Int.ofNat y) (Int.ofNat m - 1) (Int.ofNat d))
        else none
      | _, _, _ => none
    else none
  | _ =>
    match jsSplit s (fun c => c == '-') with
    | [p1, p2, p3] =>
      if p1.data.length == 4 && p2.data.length == 2 && p3.data.length == 2 then
        match decNat p1, decNat p2, decNat p3 with
        | some y, some m, some d =>
          if 1 ≤ m ∧ m ≤ 12 ∧ 1 ≤ d ∧ d ≤ 31 then
            some (daysFromCivil (Int.ofNat y) (Int.ofNat m) (Int.ofNat d))
          else none
        | _, _, _ => none
      else none
    | _ => none

/-- The urgency buckets returned by `getDeadlineStatus` (the `DeadlineStatus`
union type of `src/unnamed/part_002`): `'overdue' | 'due-soon' | 'on-track' |
'completed' | 'none'`. -/
inductive DeadlineStatus where
  | overdue
  | dueSoon
  | onTrack
  | completed
  | none
deriving DecidableEq

/-- The terminal-status test shared verbatim by all three copies of
`getDeadlineStatus`: the lower-cased label contains one of the four terminal
keywords. -/
def isTerminalStatus (status : String) : Bool :=
  let lowerStatus := jsToLower status
  jsIncludes lowerStatus "concluído" || jsIncludes lowerStatus "finalizado" ||
  jsIncludes lowerStatus "transitado em julgado" || jsIncludes lowerStatus "arquivado"

namespace Spreadsheet

/-- The date-parsing block of `getDeadlineStatus` in `src/unnamed/part_002`
lines 171–183: split at every `-` and `/`; with exactly three parts, parse component-wise
as `YYYY-MM-DD` when the first part has four characters and as `DD/MM/YYYY`
otherwise (`new Date(y, m-1, d)`, local); with any other number of parts fall
back to `new Date(dateString)`. `none` models an Invalid Date (the
`isNaN(deadline.getTime())` check), which a `NaN` from `parseInt`
propagates into. -/
def parseDeadlineDay (dateString : String) : Option Int :=
  match jsSplit dateString (fun c => c == '-' || c == '/') with
  | [p1, p2, p3] =>
    if p1.data.length == 4 then
      match jsParseInt p1, jsParseInt p2, jsParseInt p3 with
      | some y, some m, some d => some (jsMakeDay y (m - 1) d)
      | _, _, _ => Option.none
    else
      match jsParseInt p3, jsParseInt p2, jsParseInt p1 with
      | some y, some m, some d => some (jsMakeDay y (m - 1) d)
      | _, _, _ => Option.none
  | _ => jsDateParse dateString

/-- `getDeadlineStatus` from `src/unnamed/part_002` lines 164–200 (the
Spreadsheet component), at day granularity: `today` is the day number of the
current local midnight. Both dates are normalized to midnight by
`setHours(0,0,0,0)`, so in a fixed-offset environment their millisecond
difference is an exact multiple of 86,400,000 and
`Math.ceil(timeDiff/86400000)` is exactly the day-number difference. -/
def getDeadlineStatus (today : Int) (dateString status : String) : DeadlineStatus :=
  if isTerminalStatus status then .completed
  else if dateString = "" then .none
  else
    match parseDeadlineDay dateString with
    | Option.none => .none
    | some deadline =>
      if deadline < today then .overdue
      else if deadline - today ≤ 7 then .dueSoon
      else .onTrack

end Spreadsheet

namespace KpiDashboard

/-- `getDeadlineStatus` from `src/unnamed/part_001` lines 4–24 (the
KpiDashboard component), at day granularity (see
`Spreadsheet.getDeadlineStatus` for the millisecond-to-day abstraction): the
raw string goes straight to `new Date(dateString)`. -/
def getDeadlineStatus (today : Int) (dateString status : String) : DeadlineStatus :=
  if isTerminalStatus status then .completed
  else if dateString = "" then .none
  else
    match jsDateParse dateString with
    | Option.none => .none
    | some deadline =>
      if deadline < today then .overdue
      else if deadline - today ≤ 7 then .dueSoon
      else .onTrack

end KpiDashboard

namespace GlobalKpiDashboard

/-- `getDeadlineStatus` from `src/components/GlobalKpiDashboard.tsx` lines
5–25, textually identical to the KpiDashboard copy. -/
def getDeadlineStatus (today : Int) (dateString status : String) : DeadlineStatus :=
  if isTerminalStatus status then .completed
  else if dateString = "" then .none
  else
    match jsDateParse dateString with
    | Option.none => .none
    | some deadline =>
      if deadline < today then .overdue
      else if deadline - today ≤ 7 then .dueSoon
      else .onTrack

end GlobalKpiDashboard

/-- `jsOrString` with a falsy right operand is the identity. -/
lemma jsOrString_empty (x : String) : jsOrString x "" = x := by
  by_cases h : x = "" <;> simp [jsOrString, h]

/-- Mapping a pointwise-identity function over a list is the identity. -/
lemma list_map_id {α : Type} (g : α → α) (h : ∀ a, g a = a) :
    ∀ l : List α, l.map g = l
  | [] => rfl
  | a :: t => by simp only [List.map_cons, h a, list_map_id g h t]

/-- Evaluation of the Spreadsheet classifier once the terminal check fails and
the date parses: the result is determined by comparing the parsed day with
`today`. -/
lemma spreadsheet_eval (today D : Int) (ds status : String)
    (hterm : isTerminalStatus status = false)
    (hp : Spreadsheet.parseDeadlineDay ds = some D) :
    Spreadsheet.getDeadlineStatus today ds status =
      if D < today then DeadlineStatus.overdue
      else if D - today ≤ 7 then DeadlineStatus.dueSoon
      else DeadlineStatus.onTrack := by
  have hne : ¬ ds = "" := by
    intro h
    rw [h] at hp
    have h0 : Spreadsheet.parseDeadlineDay "" = (Option.none : Option Int) := rfl
    rw [h0] at hp
    exact Option.noConfusion hp
  unfold Spreadsheet.getDeadlineStatus
  rw [if_neg (by simp [hterm]), if_neg hne, hp]

/-- Evaluation of the GlobalKpiDashboard classifier once the terminal check
fails and the date parses. -/
lemma globalkpi_eval (today D : Int) (ds status : String)
    (hterm : isTerminalStatus status = false)
    (hp : jsDateParse ds = some D) :
    GlobalKpiDashboard.getDeadlineStatus today ds status =
      if D < today then DeadlineStatus.overdue
      else if D - today ≤ 7 then DeadlineStatus.dueSoon
      else DeadlineStatus.onTrack := by
  have hne : ¬ ds = "" := by
    intro h
    rw [h] at hp
    have h0 : jsDateParse "" = (Option.none : Option Int) := rfl
    rw [h0] at hp
    exact Option.noConfusion hp
  unfold GlobalKpiDashboard.getDeadlineStatus
  rw [if_neg (by simp [hterm]), if_neg hne, hp]

/-- C4: for every parseable due date and non-terminal status, both cited
copies of the classifier (`Spreadsheet.getDeadlineStatus` on its parsed day
`D₁`, `GlobalKpiDashboard.getDeadlineStatus` on its parsed day `D₂`) compare
days normalized to midnight: a day strictly before today is `overdue`, today
itself is `dueSoon` (never `overdue`), a day at most 7 days ahead is
`dueSoon`, and any later day is `onTrack`. -/
theorem c4_date_buckets (today D₁ D₂ : Int) (ds₁ ds₂ status : String)
    (hterm : isTerminalStatus status = false)
    (h₁ : Spreadsheet.parseDeadlineDay ds₁ = some D₁)
    (h₂ : jsDateParse ds₂ = some D₂) :
    ((D₁ < today → Spreadsheet.getDeadlineStatus today ds₁ status = DeadlineStatus.overdue) ∧
     (D₁ = today → Spreadsheet.getDeadlineStatus today ds₁ status = DeadlineStatus.dueSoon) ∧
     (today ≤ D₁ → D₁ - today ≤ 7 →
       Spreadsheet.getDeadlineStatus today ds₁ status = DeadlineStatus.dueSoon) ∧
     (7 < D₁ - today → Spreadsheet.getDeadlineStatus today ds₁ status = DeadlineStatus.onTrack)) ∧
    ((D₂ < today → GlobalKpiDashboard.getDeadlineStatus today ds₂ status = DeadlineStatus.overdue) ∧
     (D₂ = today → GlobalKpiDashboard.getDeadlineStatus today ds₂ status = DeadlineStatus.dueSoon) ∧
     (today ≤ D₂ → D₂ - today ≤ 7 →
       GlobalKpiDashboard.getDeadlineStatus today ds₂ status = DeadlineStatus.dueSoon) ∧
     (7 < D₂ - today →
       GlobalKpiDashboard.getDeadlineStatus today ds₂ status = DeadlineStatus.onTrack)) := by
  have e₁ := spreadsheet_eval today D₁ ds₁ status hterm h₁
  have e₂ := globalkpi_eval today D₂ ds₂ status hterm h₂
  refine ⟨⟨fun h => ?_, fun h => ?_, fun h h7 => ?_, fun h => ?_⟩,
          ⟨fun h => ?_, fun h => ?_, fun h h7 => ?_, fun h => ?_⟩⟩
  · rw [e₁, if_pos h]
  · rw [e₁, h, if_neg (lt_irrefl today), if_pos (by omega)]
  · rw [e₁, if_neg (by omega), if_pos h7]
  · rw [e₁, if_neg (by omega), if_neg (by omega)]
  · rw [e₂, if_pos h]
  · rw [e₂, h, if_neg (lt_irrefl today), if_pos (by omega)]
  · rw [e₂, if_neg (by omega), if_pos h7]
  · rw [e₂, if_neg (by omega), if_neg (by omega)]

/-- Witness for C4, at day 20108 (= 2025-01-20): a due date equal to today is
`dueSoon`, an earlier one `overdue`, one 12 days ahead `onTrack`. -/
theorem c4_date_buckets_witness :
    Spreadsheet.getDeadlineStatus 20108 "2025-01-20" "open" = DeadlineStatus.dueSoon ∧
    GlobalKpiDashboard.getDeadlineStatus 20108 "2025-01-10" "open" = DeadlineStatus.overdue ∧
    Spreadsheet.getDeadlineStatus 20108 "01/02/2025" "open" = DeadlineStatus.onTrack :=
  ⟨(c4_date_buckets 20108 20108 20108 "2025-01-20" "2025-01-20" "open"
      (by decide) (by decide) (by decide)).1.2.1 rfl,
   (c4_date_buckets 20108 20098 20098 "2025-01-10" "2025-01-10" "open"
      (by decide) (by decide) (by decide)).2.1 (by decide),
   (c4_date_buckets 20108 20120 20108 "01/02/2025" "2025-01-20" "open"
      (by decide) (by decide) (by decide)).1.2.2.2 (by decide)⟩

/-- C5: whenever the status label contains a terminal keyword
(case-insensitively, the check `isTerminalStatus` shared by all three source
copies), every copy of the classifier returns `completed`, for every due-date
input — the terminal check takes priority over every date bucket. -/
theorem c5_terminal_priority (today : Int) (ds status : String)
    (hterm : isTerminalStatus status = true) :
    Spreadsheet.getDeadlineStatus today ds status = DeadlineStatus.completed ∧
    KpiDashboard.getDeadlineStatus today ds status = DeadlineStatus.completed ∧
    GlobalKpiDashboard.getDeadlineStatus today ds status = DeadlineStatus.completed := by
  refine ⟨?_, ?_, ?_⟩ <;>
    simp [Spreadsheet.getDeadlineStatus, KpiDashboard.getDeadlineStatus,
      GlobalKpiDashboard.getDeadlineStatus, hterm]

/-- Witness for C5: a past due date with status `"Arquivado"` is `completed`
in all three copies. -/
theorem c5_terminal_priority_witness :
    isTerminalStatus "Arquivado" = true ∧
    (Spreadsheet.getDeadlineStatus 20108 "2020-01-01" "Arquivado" = DeadlineStatus.completed ∧
     KpiDashboard.getDeadlineStatus 20108 "2020-01-01" "Arquivado" = DeadlineStatus.completed ∧
     GlobalKpiDashboard.getDeadlineStatus 20108 "2020-01-01" "Arquivado" = DeadlineStatus.completed) :=
  ⟨by decide, c5_terminal_priority 20108 "2020-01-01" "Arquivado" (by decide)⟩

/-- C6: for an absent (empty) or unparseable date string and a non-terminal
status label, the Spreadsheet classifier returns the neutral bucket `none`
(the function is total by construction, so it cannot throw). -/
theorem c6_invalid_date_unset (today : Int) (ds status : String)
    (hterm : isTerminalStatus status = false)
    (h : ds = "" ∨ Spreadsheet.parseDeadlineDay ds = Option.none) :
    Spreadsheet.getDeadlineStatus today ds status = DeadlineStatus.none := by
  by_cases he : ds = ""
  · subst he; simp [Spreadsheet.getDeadlineStatus, hterm]
  · rcases h with h | h
    · exact absurd h he
    · unfold Spreadsheet.getDeadlineStatus
      rw [if_neg (by simp [hterm]), if_neg he, h]

/-- Witness for C6: an unparseable string and the empty string both classify
as `none` under the non-terminal status `"open"`. -/
theorem c6_invalid_date_unset_witness :
    Spreadsheet.getDeadlineStatus 0 "soon" "open" = DeadlineStatus.none ∧
    Spreadsheet.getDeadlineStatus 0 "" "open" = DeadlineStatus.none :=
  ⟨c6_invalid_date_unset 0 "soon" "open" (by decide) (Or.inr (by decide)),
   c6_invalid_date_unset 0 "" "open" (by decide) (Or.inl rfl)⟩

/-- A `CaseData` record with every field blank, used to build the concrete
cases of the witnesses below. -/
def baseCase : CaseData where
  id := 0
  id2 := ""
  tribunal := ""
  processoNumero := ""
  autor := ""
  reu := ""
  trib := ""
  varaComarca := ""
  materia := ""
  ownerName := ""
  name := ""
  email := ""
  coResponsibleName := ""
  tramitationLog := []
  attachments := []
  dataNomeacao := ""
  dataInicial := ""
  prazoDeterminado := ""
  dataDesignada := ""
  dataFinal := ""
  startHour := ""
  finishHour := ""
  dataFinalCorridos := ""
  diasUteis := 0
  prioridade := ""
  dataAtribuida := ""
  fases := ""
  status := ""
  segredoDeJustica := ""
  naturezaAcao := ""
  valorDaAcao := ""

/-- A blank `User` record for the witnesses below. -/
def baseUser : User where
  id := 0
  name := ""
  email := ""
  password := ""
  permission := "user"

/-- C1: when the process number does not collide with a different case and the
new assignee has a user profile `w`, `handleUpdateCase` keeps the store length;
on the stored case with the updated id it appends exactly one tramitation
entry `{fromUser := actingUser, toUser := new assignee}` at the end of the
prior log, sets `email` from the assignee's profile, and adopts the new
assignee as co-responsible only if co-responsible was previously unset;
a stored case whose assignee is unchanged becomes the update verbatim, with
zero entries appended. -/
theorem c1_update_assignee (users : List User) (actorName now : String)
    (cases : List CaseData) (upd : CaseData) (w : User) (i : Nat) (c : CaseData)
    (hnc : (cases.any fun x =>
      x.id != upd.id && (jsTrim x.processoNumero == jsTrim upd.processoNumero)) = false)
    (hw : users.find? (fun u => u.name == upd.name) = some w)
    (hc : cases[i]? = some c) :
    (handleUpdateCase users actorName now cases upd).length = cases.length ∧
    (c.id = upd.id → c.name ≠ upd.name →
      (handleUpdateCase users actorName now cases upd)[i]? =
        some { upd with
          email := w.email
          tramitationLog := c.tramitationLog ++
            [{ fromUser := actorName
               toUser := upd.name
               timestamp := now
               deadline := upd.prazoDeterminado }]
          coResponsibleName :=
            if c.coResponsibleName = "" then upd.name else c.coResponsibleName }) ∧
    (c.id = upd.id → c.name = upd.name →
      (handleUpdateCase users actorName now cases upd)[i]? = some upd) := by
  have hmap : handleUpdateCase users actorName now cases upd =
      cases.map (updateCaseEntry users actorName now upd) := by
    unfold handleUpdateCase
    rw [if_neg (by simp [hnc])]
  refine ⟨by rw [hmap]; simp, ?_, ?_⟩
  · intro hid hname
    have hred : updateCaseEntry users actorName now upd c =
        { upd with
          email := jsOrString w.email ""
          tramitationLog := c.tramitationLog ++
            [{ fromUser := actorName
               toUser := upd.name
               timestamp := now
               deadline := upd.prazoDeterminado }]
          coResponsibleName := jsOrString c.coResponsibleName upd.name } := by
      unfold updateCaseEntry
      rw [if_neg (by simp [hid]), if_pos (by simp [hname]), hw]
    rw [hmap, List.getElem?_map, hc, Option.map_some', hred, jsOrString_empty]
    rfl
  · intro hid hname
    have hred : updateCaseEntry users actorName now upd c = upd := by
      unfold updateCaseEntry
      rw [if_neg (by simp [hid]), if_neg (by simp [hname])]
    rw [hmap, List.getElem?_map, hc, Option.map_some', hred]

/-- Witness for C1: moving a case from Alice to Bob appends exactly the one
entry `{Admin → Bob}` after the existing entry, takes Bob's email from his
profile, and fills the unset co-responsible with Bob. -/
theorem c1_update_assignee_witness :
    (handleUpdateCase
        [{ baseUser with id := 2, name := "Bob", email := "bob@ms.com" }]
        "Admin" "t2"
        [{ baseCase with
           id := 1
           processoNumero := "A1"
           name := "Alice"
           tramitationLog :=
             [{ fromUser := "Sys", toUser := "Alice", timestamp := "t0", deadline := "" }] }]
        { baseCase with
          id := 1
          processoNumero := "A1"
          name := "Bob"
          prazoDeterminado := "d1" })[0]? =
      some { baseCase with
             id := 1
             processoNumero := "A1"
             name := "Bob"
             prazoDeterminado := "d1"
             email := "bob@ms.com"
             coResponsibleName := "Bob"
             tramitationLog :=
               [{ fromUser := "Sys", toUser := "Alice", timestamp := "t0", deadline := "" },
                { fromUser := "Admin", toUser := "Bob", timestamp := "t2", deadline := "d1" }] } := by
  have h := (c1_update_assignee
      [{ baseUser with id := 2, name := "Bob", email := "bob@ms.com" }] "Admin" "t2"
      [{ baseCase with
         id := 1
         processoNumero := "A1"
         name := "Alice"
         tramitationLog :=
           [{ fromUser := "Sys", toUser := "Alice", timestamp := "t0", deadline := "" }] }]
      { baseCase with
        id := 1
        processoNumero := "A1"
        name := "Bob"
        prazoDeterminado := "d1" }
      { baseUser with id := 2, name := "Bob", email := "bob@ms.com" } 0
      { baseCase with
        id := 1
        processoNumero := "A1"
        name := "Alice"
        tramitationLog :=
           [{ fromUser := "Sys", toUser := "Alice", timestamp := "t0", deadline := "" }] }
      (by decide) (by decide) rfl).2.1 rfl (by decide)
  exact h.trans (by decide)

/-- The store and batch of C2: a store already holding process number `"P2"`,
and the import batch `["P1", "P1", "P2"]`. -/
def c2Store : CaseStore where
  cases := [{ baseCase with id := 1, processoNumero := "P2" }]
  lastCaseId := 1

/-- The import batch of C2. -/
def c2Batch : List CaseData :=
  [{ baseCase with processoNumero := "P1" },
   { baseCase with processoNumero := "P1" },
   { baseCase with processoNumero := "P2" }]

/-- C2 counterexample: reconciling `["P1","P1","P2"]` against a store already
holding `"P2"` does not yield an empty accepted list — the first `"P1"`
occurrence is accepted (it collides with nothing), so `accepted = []` is
false. -/
theorem c2_counterexample :
    (handleImportCases [] "tnow" c2Store c2Batch).2.successfulImports ≠ [] := by
  decide

/-- C2 (amended): reconciling `["P1","P1","P2"]` against a store already
holding `"P2"` accepts exactly one case — the first `"P1"` occurrence — and
reports the second `"P1"` as an in-file duplicate and `"P2"` as a system
duplicate. -/
theorem c2_amended_report :
    (handleImportCases [] "tnow" c2Store c2Batch).2.successfulImports.length = 1 ∧
    (handleImportCases [] "tnow" c2Store c2Batch).2.successfulImports.map
      (fun c => c.processoNumero) = ["P1"] ∧
    (handleImportCases [] "tnow" c2Store c2Batch).2.duplicatesInFile = ["P1"] ∧
    (handleImportCases [] "tnow" c2Store c2Batch).2.duplicatesInSystem = ["P2"] := by
  refine ⟨by decide, by decide, by decide, by decide⟩

/-- C3: process-number uniqueness is preserved: `handleAddCase` rejects a draft
whose trimmed process number matches an existing case's and returns the store
unchanged, and `handleUpdateCase` rejects an update whose trimmed process
number matches a different case's (different id) and returns the case list
unchanged. -/
theorem c3_uniqueness_rejection (actorName now : String) (users : List User)
    (store : CaseStore) (draft : CaseData) (cases : List CaseData) (upd : CaseData) :
    ((store.cases.any fun c =>
        jsTrim c.processoNumero == jsTrim draft.processoNumero) = true →
      handleAddCase actorName now store draft = store) ∧
    ((cases.any fun c =>
        c.id != upd.id && (jsTrim c.processoNumero == jsTrim upd.processoNumero)) = true →
      handleUpdateCase users actorName now cases upd = cases) := by
  constructor
  · intro h
    unfold handleAddCase
    rw [if_pos h]
  · intro h
    unfold handleUpdateCase
    rw [if_pos h]

/-- Witness for C3: adding `" 123-A "` when `"123-A"` is stored leaves the
store unchanged, and updating case 2 to the process number of case 1 leaves
the list unchanged. -/
theorem c3_uniqueness_rejection_witness :
    handleAddCase "Admin" "t1"
      { cases := [{ baseCase with id := 1, processoNumero := "123-A" }], lastCaseId := 1 }
      { baseCase with processoNumero := " 123-A " } =
      { cases := [{ baseCase with id := 1, processoNumero := "123-A" }], lastCaseId := 1 } ∧
    handleUpdateCase [] "Admin" "t1"
      [{ baseCase with id := 1, processoNumero := "123-A" },
       { baseCase with id := 2, processoNumero := "999" }]
      { baseCase with id := 2, processoNumero := "123-A" } =
      [{ baseCase with id := 1, processoNumero := "123-A" },
       { baseCase with id := 2, processoNumero := "999" }] :=
  ⟨(c3_uniqueness_rejection "Admin" "t1" []
      { cases := [{ baseCase with id := 1, processoNumero := "123-A" }], lastCaseId := 1 }
      { baseCase with processoNumero := " 123-A " } [] baseCase).1 (by decide),
   (c3_uniqueness_rejection "Admin" "t1" [] { cases := [], lastCaseId := 0 } baseCase
      [{ baseCase with id := 1, processoNumero := "123-A" },
       { baseCase with id := 2, processoNumero := "999" }]
      { baseCase with id := 2, processoNumero := "123-A" }).2 (by decide)⟩

/-- C7: on a non-colliding draft, `handleAddCase` succeeds and produces the
case with the next sequential id, display id `"MST"` + the id zero-padded to
five digits, a single synthetic tramitation entry
`{fromUser := actingUser, toUser := draft.name, timestamp := now,
deadline := draft.prazoDeterminado}`, co-responsible equal to the draft's
assignee, and the new case at the head of the collection. -/
theorem c7_add_case_success (actorName now : String) (store : CaseStore)
    (draft : CaseData)
    (h : (store.cases.any fun c =>
      jsTrim c.processoNumero == jsTrim draft.processoNumero) = false) :
    handleAddCase actorName now store draft =
      { cases :=
          { draft with
            id := store.lastCaseId + 1
            id2 := "MST" ++ jsPadStart (toString (store.lastCaseId + 1)) 5 '0'
            ownerName := "Ms Tributário"
            coResponsibleName := draft.name
            tramitationLog :=
              [{ fromUser := actorName
                 toUser := draft.name
                 timestamp := now
                 deadline := draft.prazoDeterminado }] } :: store.cases
        lastCaseId := store.lastCaseId + 1 } := by
  unfold handleAddCase
  rw [if_neg (by simp [h]), jsOrString_empty]

/-- Witness for C7: adding a draft to the empty store yields id 1, display id
`"MST00001"`, the one synthetic entry, co-responsible = assignee, at the
head. -/
theorem c7_add_case_success_witness :
    handleAddCase "Admin" "t1" { cases := [], lastCaseId := 0 }
      { baseCase with
        processoNumero := "P9"
        name := "Alice"
        prazoDeterminado := "2025-01-01" } =
      { cases :=
          [{ baseCase with
             id := 1
             id2 := "MST00001"
             processoNumero := "P9"
             name := "Alice"
             prazoDeterminado := "2025-01-01"
             ownerName := "Ms Tributário"
             coResponsibleName := "Alice"
             tramitationLog :=
               [{ fromUser := "Admin", toUser := "Alice", timestamp := "t1", deadline := "2025-01-01" }] }]
        lastCaseId := 1 } := by
  rw [c7_add_case_success "Admin" "t1" { cases := [], lastCaseId := 0 }
    { baseCase with
      processoNumero := "P9"
      name := "Alice"
      prazoDeterminado := "2025-01-01" } (by decide)]
  decide

/-- C8: `handleTramitateCase` leaves the case list unchanged on every failure:
an oversized attachment is rejected whatever the read outcome would be, a
missing target user mutates nothing for any attachment configuration, and a
failed or empty attachment read never commits the mutation. -/
theorem c8_tramitate_no_mutation_on_failure (users : List User)
    (actorName now nowMs : String) (cases : List CaseData) (caseId : Nat)
    (toUserName deadline : String) :
    (∀ f : JsFile, MAX_FILE_SIZE_BYTES < f.size → ∀ rr : Option String,
      handleTramitateCase users actorName now nowMs cases caseId toUserName deadline
        (some f) rr = cases) ∧
    (users.find? (fun u => u.name == toUserName) = Option.none →
      ∀ (af : Option JsFile) (rr : Option String),
        handleTramitateCase users actorName now nowMs cases caseId toUserName deadline
          af rr = cases) ∧
    (∀ f : JsFile,
      handleTramitateCase users actorName now nowMs cases caseId toUserName deadline
        (some f) Option.none = cases ∧
      handleTramitateCase users actorName now nowMs cases caseId toUserName deadline
        (some f) (some "") = cases) := by
  have hproc : users.find? (fun u => u.name == toUserName) = Option.none →
      ∀ att, processTramitation users actorName now nowMs caseId toUserName deadline
        att cases = cases := by
    intro h att
    unfold processTramitation
    refine list_map_id _ (fun c => ?_) cases
    by_cases hcid : (c.id == caseId) = true
    · simp [hcid, h]
    · simp [hcid]
  refine ⟨?_, ?_, ?_⟩
  · intro f hf rr
    show (if f.size > MAX_FILE_SIZE_BYTES then cases
      else match rr with
      | none => cases
      | some content =>
        if content = "" then cases
        else processTramitation users actorName now nowMs caseId toUserName deadline
          (some (f, content)) cases) = cases
    rw [if_pos hf]
  · intro h af rr
    cases af with
    | none => exact hproc h Option.none
    | some f =>
      show (if f.size > MAX_FILE_SIZE_BYTES then cases
        else match rr with
        | none => cases
        | some content =>
          if content = "" then cases
          else processTramitation users actorName now nowMs caseId toUserName deadline
            (some (f, content)) cases) = cases
      by_cases hs : f.size > MAX_FILE_SIZE_BYTES
      · rw [if_pos hs]
      · rw [if_neg hs]
        cases rr with
        | none => rfl
        | some content =>
          show (if content = "" then cases
            else processTramitation users actorName now nowMs caseId toUserName deadline
              (some (f, content)) cases) = cases
          by_cases hce : content = ""
          · rw [if_pos hce]
          · rw [if_neg hce]
            exact hproc h _
  · intro f
    constructor
    · show (if f.size > MAX_FILE_SIZE_BYTES then cases else cases) = cases
      by_cases hs : f.size > MAX_FILE_SIZE_BYTES
      · rw [if_pos hs]
      · rw [if_neg hs]
    · show (if f.size > MAX_FILE_SIZE_BYTES then cases
        else if ("" : String) = "" then cases
        else processTramitation users actorName now nowMs caseId toUserName deadline
          (some (f, "")) cases) = cases
      by_cases hs : f.size > MAX_FILE_SIZE_BYTES
      · rw [if_pos hs]
      · rw [if_neg hs, if_pos rfl]

/-- Witness for C8: a 2 MB + 1 byte attachment, a missing target user, and a
failed read each leave the one-case store untouched. -/
theorem c8_tramitate_no_mutation_on_failure_witness :
    handleTramitateCase [] "Admin" "t" "m" [{ baseCase with id := 1 }] 1 "Bob" "d"
      (some { name := "a.pdf", type := "application/pdf", size := 2097153 })
      (some "data") = [{ baseCase with id := 1 }] ∧
    handleTramitateCase [] "Admin" "t" "m" [{ baseCase with id := 1 }] 1 "Bob" "d"
      Option.none Option.none = [{ baseCase with id := 1 }] ∧
    handleTramitateCase [] "Admin" "t" "m" [{ baseCase with id := 1 }] 1 "Bob" "d"
      (some { name := "a.pdf", type := "application/pdf", size := 100 })
      Option.none = [{ baseCase with id := 1 }] :=
  ⟨(c8_tramitate_no_mutation_on_failure [] "Admin" "t" "m"
      [{ baseCase with id := 1 }] 1 "Bob" "d").1
      { name := "a.pdf", type := "application/pdf", size := 2097153 }
      (by decide) (some "data"),
   (c8_tramitate_no_mutation_on_failure [] "Admin" "t" "m"
      [{ baseCase with id := 1 }] 1 "Bob" "d").2.1 (by decide)
      Option.none Option.none,
   ((c8_tramitate_no_mutation_on_failure [] "Admin" "t" "m"
      [{ baseCase with id := 1 }] 1 "Bob" "d").2.2
      { name := "a.pdf", type := "application/pdf", size := 100 }).1⟩

/-- C9: `handleUpdateMultipleCases` keeps the store length; a stored case whose
id appears in no supplied record is left untouched, and a stored case whose id
appears in the list is replaced by a supplied record verbatim (one of the list
elements, with the same id — in particular no tramitation entry is
fabricated). -/
theorem c9_bulk_replace (ups cases : List CaseData) (i : Nat) (c : CaseData)
    (hc : cases[i]? = some c) :
    (handleUpdateMultipleCases ups cases).length = cases.length ∧
    ((∀ u ∈ ups, u.id ≠ c.id) →
      (handleUpdateMultipleCases ups cases)[i]? = some c) ∧
    ((∃ u ∈ ups, u.id = c.id) →
      ∃ u, (handleUpdateMultipleCases ups cases)[i]? = some u ∧
        u ∈ ups ∧ u.id = c.id) := by
  have hmap : (handleUpdateMultipleCases ups cases)[i]? =
      some ((jsMapGet ups c.id).getD c) := by
    unfold handleUpdateMultipleCases
    rw [List.getElem?_map, hc, Option.map_some']
  refine ⟨by unfold handleUpdateMultipleCases; simp, ?_, ?_⟩
  · intro h
    have hnone : ups.reverse.find? (fun x => x.id == c.id) = Option.none := by
      apply List.find?_eq_none.mpr
      intro x hx hbeq
      exact h x (List.mem_reverse.mp hx) (by simpa using hbeq)
    rw [hmap]
    unfold jsMapGet
    rw [hnone]
    rfl
  · rintro ⟨u, hu, hid⟩
    rcases hfind : ups.reverse.find? (fun x => x.id == c.id) with _ | v
    · exact absurd (by simpa using hid)
        (List.find?_eq_none.mp hfind u (List.mem_reverse.mpr hu))
    · refine ⟨v, ?_, List.mem_reverse.mp (List.mem_of_find?_eq_some hfind), ?_⟩
      · rw [hmap]
        unfold jsMapGet
        rw [hfind]
        rfl
      · simpa using List.find?_some hfind

/-- Witness for C9: a bulk update carrying only id 2 leaves the id-1 case
byte-for-byte untouched and replaces the id-2 case with the supplied
record. -/
theorem c9_bulk_replace_witness :
    (handleUpdateMultipleCases [{ baseCase with id := 2, status := "Done" }]
      [{ baseCase with id := 1 }, { baseCase with id := 2 }])[0]? =
      some { baseCase with id := 1 } ∧
    (∃ u, (handleUpdateMultipleCases [{ baseCase with id := 2, status := "Done" }]
      [{ baseCase with id := 1 }, { baseCase with id := 2 }])[1]? = some u ∧
      u ∈ [{ baseCase with id := 2, status := "Done" }] ∧
      u.id = ({ baseCase with id := 2 } : CaseData).id) :=
  ⟨(c9_bulk_replace [{ baseCase with id := 2, status := "Done" }]
      [{ baseCase with id := 1 }, { baseCase with id := 2 }] 0
      { baseCase with id := 1 } rfl).2.1 (by decide),
   (c9_bulk_replace [{ baseCase with id := 2, status := "Done" }]
      [{ baseCase with id := 1 }, { baseCase with id := 2 }] 1
      { baseCase with id := 2 } rfl).2.2
      ⟨{ baseCase with id := 2, status := "Done" }, by decide, by decide⟩⟩

/-- C10 counterexample: the three copies do not agree on every input. On
`"01/02/2025"` with status `"open"` and today = day 20108 (2025-01-20), the
Spreadsheet copy parses day/month (1 February 2025, 12 days ahead: `onTrack`)
while both KPI copies parse month/day (2 January 2025, in the past:
`overdue`). -/
theorem c10_counterexample :
    Spreadsheet.getDeadlineStatus 20108 "01/02/2025" "open" = DeadlineStatus.onTrack ∧
    KpiDashboard.getDeadlineStatus 20108 "01/02/2025" "open" = DeadlineStatus.overdue ∧
    GlobalKpiDashboard.getDeadlineStatus 20108 "01/02/2025" "open" = DeadlineStatus.overdue ∧
    Spreadsheet.getDeadlineStatus 20108 "01/02/2025" "open" ≠
      GlobalKpiDashboard.getDeadlineStatus 20108 "01/02/2025" "open" := by
  refine ⟨by decide, by decide, by decide, by decide⟩

/-- C10 (amended): the two KPI-dashboard copies — which are textually
identical — return the same bucket on every `(today, dateString, statusLabel)`
input; the Spreadsheet copy is not equivalent to them (see the
counterexample). -/
theorem c10_kpi_copies_agree (today : Int) (ds status : String) :
    KpiDashboard.getDeadlineStatus today ds status =
      GlobalKpiDashboard.getDeadlineStatus today ds status := rfl

end MsApp
